import Mathlib

/-!
Shallow embedding of the GrandRiverAnalytics CMS (a Flask application in
`app.py`, `utils/auth.py`, `utils/db.py`) and proofs of the specification
claims about it.  Python functions are translated into executable Lean
definitions; the SQLite `posts` table is a `List Post`; the Flask session
is a `SessionState` record; wall-clock time is an explicit `Int` argument.
-/

namespace GrandRiver

/-! ## Python string primitives

`str.strip()` with no argument removes whitespace from both ends, and the
regex class `\s` matches whitespace.  We model the ASCII whitespace set
(Python additionally matches some Unicode whitespace; every such character
is handled identically by the code under study, so the ASCII set is the
only part the claims exercise). -/

def pySpace (c : Char) : Bool :=
  c == ' ' || c == '\t' || c == '\n' || c == '\r' || c == '\x0b' || c == '\x0c'

/-- `str.strip()` on a character list: drop whitespace from both ends. -/
def pyStripChars (l : List Char) : List Char :=
  ((l.dropWhile pySpace).reverse.dropWhile pySpace).reverse

/-- Python `value.strip()`. -/
def pyStrip (s : String) : String :=
  String.mk (pyStripChars s.data)

/-- Python `value.lower()` (ASCII case folding; non-ASCII letters are
removed by the subsequent regex in every use below). -/
def pyLower (s : String) : String :=
  String.mk (s.data.map Char.toLower)

/-! ## `slugify` (app.py lines 154-158)

```python
def slugify(value):
    value = value.strip().lower()
    value = re.sub(r"[^a-z0-9\s-]", "", value)
    value = re.sub(r"[\s_-]+", "-", value)
    return value.strip("-")
```
-/

/-- A character kept by `re.sub(r"[^a-z0-9\s-]", "", value)`. -/
def isSlugKeep (c : Char) : Bool :=
  (decide ('a' ≤ c ∧ c ≤ 'z')) || (decide ('0' ≤ c ∧ c ≤ '9')) || pySpace c || c == '-'

/-- A character matched by the class `[\s_-]`. -/
def isSep (c : Char) : Bool :=
  pySpace c || c == '_' || c == '-'

/-- `re.sub(r"[\s_-]+", "-", value)`: replace each maximal run of
separator characters by a single dash.  The boolean records whether the
previous character belonged to a separator run. -/
def collapseSeps : List Char → Bool → List Char
  | [], _ => []
  | c :: rest, prevSep =>
    if isSep c then
      if prevSep then collapseSeps rest true
      else '-' :: collapseSeps rest true
    else c :: collapseSeps rest false

/-- `value.strip("-")`: drop dashes from both ends. -/
def stripDashes (l : List Char) : List Char :=
  ((l.dropWhile (· == '-')).reverse.dropWhile (· == '-')).reverse

/-- `slugify` from app.py. -/
def slugify (value : String) : String :=
  let v1 := (pyStripChars value.data).map Char.toLower
  let v2 := v1.filter isSlugKeep
  let v3 := collapseSeps v2 false
  String.mk (stripDashes v3)

/-- A character allowed in a finished slug. -/
def isSlugOutputChar (c : Char) : Bool :=
  (decide ('a' ≤ c ∧ c ≤ 'z')) || (decide ('0' ≤ c ∧ c ≤ '9')) || c == '-'

/-- Adjacent slug characters are never both dashes. -/
def NoDoubleDash (a b : Char) : Prop := ¬(a = '-' ∧ b = '-')

theorem collapseSeps_cons_sep_true {x : Char} {rest : List Char} (h : isSep x = true) :
    collapseSeps (x :: rest) true = collapseSeps rest true := by
  simp [collapseSeps, h]

theorem collapseSeps_cons_sep_false {x : Char} {rest : List Char} (h : isSep x = true) :
    collapseSeps (x :: rest) false = '-' :: collapseSeps rest true := by
  simp [collapseSeps, h]

theorem collapseSeps_cons_nonsep {x : Char} {rest : List Char} {b : Bool}
    (h : ¬ isSep x = true) :
    collapseSeps (x :: rest) b = x :: collapseSeps rest false := by
  simp [collapseSeps, h]

theorem mem_collapseSeps_slugOutput {l : List Char} {b : Bool}
    (hl : ∀ c ∈ l, isSlugKeep c = true) :
    ∀ c ∈ collapseSeps l b, isSlugOutputChar c = true := by
  induction l generalizing b with
  | nil => intro c hc; simp [collapseSeps] at hc
  | cons x rest ih =>
    intro c hc
    have hx : isSlugKeep x = true := hl x (by simp)
    have hrest : ∀ c ∈ rest, isSlugKeep c = true := fun c hc => hl c (by simp [hc])
    by_cases hs : isSep x = true
    · cases b with
      | true =>
        rw [collapseSeps_cons_sep_true hs] at hc
        exact ih hrest c hc
      | false =>
        rw [collapseSeps_cons_sep_false hs] at hc
        rcases List.mem_cons.mp hc with h | h
        · subst h; simp [isSlugOutputChar]
        · exact ih hrest c h
    · rw [collapseSeps_cons_nonsep hs] at hc
      rcases List.mem_cons.mp hc with h | h
      · subst h
        simp only [isSep, Bool.or_eq_true, beq_iff_eq] at hs
        push_neg at hs
        simp only [isSlugKeep, Bool.or_eq_true, decide_eq_true_eq, beq_iff_eq] at hx
        rcases hx with ((h1 | h2) | h3) | h4
        · simp [isSlugOutputChar, h1]
        · simp [isSlugOutputChar, h2]
        · exact absurd h3 hs.1.1
        · exact absurd h4 hs.2
      · exact ih hrest c h

theorem head_collapseSeps_true_ne_dash (l : List Char) :
    ∀ c ∈ (collapseSeps l true).head?, c ≠ '-' := by
  induction l with
  | nil => intro c hc; simp [collapseSeps] at hc
  | cons x rest ih =>
    intro c hc
    by_cases hs : isSep x = true
    · rw [collapseSeps_cons_sep_true hs] at hc
      exact ih c hc
    · rw [collapseSeps_cons_nonsep hs] at hc
      simp only [List.head?_cons, Option.mem_def, Option.some.injEq] at hc
      subst hc
      intro h
      subst h
      simp [isSep] at hs

theorem chain'_collapseSeps (l : List Char) (b : Bool) :
    (collapseSeps l b).Chain' NoDoubleDash := by
  induction l generalizing b with
  | nil => simp [collapseSeps]
  | cons x rest ih =>
    by_cases hs : isSep x = true
    · cases b with
      | true => rw [collapseSeps_cons_sep_true hs]; exact ih true
      | false =>
        rw [collapseSeps_cons_sep_false hs, List.chain'_cons']
        refine ⟨?_, ih true⟩
        intro y hy hcontra
        exact head_collapseSeps_true_ne_dash rest y hy hcontra.2
    · rw [collapseSeps_cons_nonsep hs, List.chain'_cons']
      refine ⟨?_, ih false⟩
      intro y hy hcontra
      apply hs
      rw [hcontra.1]
      simp [isSep]

theorem mem_stripDashes {l : List Char} {c : Char} (h : c ∈ stripDashes l) : c ∈ l := by
  unfold stripDashes at h
  rw [List.mem_reverse] at h
  have h1 := (List.dropWhile_suffix _).subset h
  rw [List.mem_reverse] at h1
  exact (List.dropWhile_suffix _).subset h1

theorem chain'_stripDashes {l : List Char} (h : l.Chain' NoDoubleDash) :
    (stripDashes l).Chain' NoDoubleDash := by
  have hsym : ∀ {x : List Char}, x.Chain' NoDoubleDash → x.reverse.Chain' NoDoubleDash :=
    fun hx => List.chain'_reverse.mpr (hx.imp fun a b hab hc => hab ⟨hc.2, hc.1⟩)
  unfold stripDashes
  exact hsym ((hsym (h.suffix (List.dropWhile_suffix _))).suffix (List.dropWhile_suffix _))

theorem head?_dropWhile_false (p : Char → Bool) (l : List Char) :
    ∀ c ∈ (l.dropWhile p).head?, p c = false := by
  induction l with
  | nil => simp [List.dropWhile]
  | cons x rest ih =>
    intro c hc
    rw [List.dropWhile_cons] at hc
    by_cases hx : p x = true
    · rw [if_pos hx] at hc
      exact ih c hc
    · rw [if_neg hx] at hc
      simp only [List.head?_cons, Option.mem_def, Option.some.injEq] at hc
      subst hc
      simpa using hx

theorem getLast?_append_of_ne_nil {t l : List Char} (h : l ≠ []) :
    (t ++ l).getLast? = l.getLast? := by
  rw [List.getLast?_append]
  cases l with
  | nil => exact absurd rfl h
  | cons a as => simp [List.getLast?_isSome.mpr (List.cons_ne_nil a as), Option.or_of_isSome]

theorem getLast?_dropWhile_of_ne_nil {p : Char → Bool} {y : List Char}
    (h : y.dropWhile p ≠ []) :
    (y.dropWhile p).getLast? = y.getLast? := by
  conv_rhs => rw [← List.takeWhile_append_dropWhile p y]
  exact (getLast?_append_of_ne_nil h).symm

theorem head_stripDashes (l : List Char) :
    ∀ c ∈ (stripDashes l).head?, c ≠ '-' := by
  intro c hc
  unfold stripDashes at hc
  rw [List.head?_reverse] at hc
  by_cases hX : (l.dropWhile (· == '-')).reverse.dropWhile (· == '-') = []
  · rw [hX] at hc; simp at hc
  · rw [getLast?_dropWhile_of_ne_nil hX, List.getLast?_reverse] at hc
    have := head?_dropWhile_false (· == '-') l c hc
    simpa using this

theorem last_stripDashes (l : List Char) :
    ∀ c ∈ (stripDashes l).getLast?, c ≠ '-' := by
  intro c hc
  unfold stripDashes at hc
  rw [List.getLast?_reverse] at hc
  have := head?_dropWhile_false (· == '-') _ c hc
  simpa using this

/-- Claim C4: for every title string, the slug derived by `slugify` contains
only lowercase ASCII letters, digits, and hyphens, contains no two
consecutive hyphens, and neither starts nor ends with a hyphen. -/
theorem claim_C4_slugify_wellformed (s : String) :
    (∀ c ∈ (slugify s).data, isSlugOutputChar c = true) ∧
    (slugify s).data.Chain' NoDoubleDash ∧
    (∀ c ∈ (slugify s).data.head?, c ≠ '-') ∧
    (∀ c ∈ (slugify s).data.getLast?, c ≠ '-') := by
  have hdata : (slugify s).data
      = stripDashes
          (collapseSeps (((pyStripChars s.data).map Char.toLower).filter isSlugKeep) false) := rfl
  refine ⟨?_, ?_, ?_, ?_⟩
  · intro c hc
    rw [hdata] at hc
    exact mem_collapseSeps_slugOutput (fun c hc => (List.mem_filter.mp hc).2) c
      (mem_stripDashes hc)
  · rw [hdata]
    exact chain'_stripDashes (chain'_collapseSeps _ false)
  · rw [hdata]
    exact head_stripDashes _
  · rw [hdata]
    exact last_stripDashes _

/-! ## Auth / session layer (utils/auth.py)

The Flask session is modelled as a record holding the CSRF entries and
the admin flag.  `time.time()` is an explicit `Int` parameter, and the
random `secrets.token_urlsafe(32)` draw is an explicit `fresh` argument. -/

structure SessionState where
  csrfToken : Option String := none
  csrfTs : Option Int := none
  adminAuthenticated : Bool := false
deriving DecidableEq, Repr

def CSRF_TTL_SECONDS : Int := 60 * 60

/-- Python truthiness of an optional string (`None` and `""` are falsy). -/
def strFalsy : Option String → Bool
  | none => true
  | some s => s == ""

/-- `generate_csrf_token` (utils/auth.py lines 36-42): reuse the stored
token unless it is absent (or falsy); only then store `fresh` with the
current timestamp.  Returns the token handed to templates and the session
afterwards. -/
def generate_csrf_token (sess : SessionState) (fresh : String) (now : Int) :
    String × SessionState :=
  if strFalsy sess.csrfToken then
    (fresh, { sess with csrfToken := some fresh, csrfTs := some now })
  else
    (sess.csrfToken.getD "", sess)

/-- `validate_csrf_token` (utils/auth.py lines 45-55). -/
def validate_csrf_token (sentToken : Option String) (sess : SessionState) (now : Int) :
    Bool :=
  if strFalsy sentToken || strFalsy sess.csrfToken then false
  else if sentToken ≠ sess.csrfToken then false
  else if now - sess.csrfTs.getD 0 > CSRF_TTL_SECONDS then false
  else true

inductive Method
  | GET | POST | PUT | DELETE
deriving DecidableEq, Repr

/-- `request.method in {"POST", "PUT", "DELETE"}` (utils/auth.py line 59). -/
def isMutating : Method → Bool
  | .POST => true
  | .PUT => true
  | .DELETE => true
  | .GET => false

inductive HttpResponse
  | page (name : String)
  | redirectTo (location : String)
  | badRequest
  | notFound
  | serverError
deriving DecidableEq, Repr

/-- `csrf_protect` (utils/auth.py lines 58-61), run by `before_request`
(app.py lines 47-51): `some .badRequest` aborts the request with a 400
before any route handler runs. -/
def csrf_protect (m : Method) (sentToken : Option String) (sess : SessionState)
    (now : Int) : Option HttpResponse :=
  if isMutating m && !validate_csrf_token sentToken sess now then
    some .badRequest
  else
    none

/-! ## Data model (utils/db.py `posts` table) -/

/-- One row of the `posts` table (schema in `init_db`, utils/db.py).
`published` and `featured` are SQLite INTEGER flags (0/1); nullable
columns are `Option`. -/
structure Post where
  id : Nat
  title : String
  slug : String
  excerpt : String
  content : String
  cover_url : Option String := none
  tags : Option String := none
  published : Nat := 0
  created_at : String
  updated_at : String
  publish_date : Option String := none
  meta_title : Option String := none
  meta_description : Option String := none
  hero_kicker : Option String := none
  hero_style : Option String := none
  highlight_quote : Option String := none
  summary_points : Option String := none
  cta_label : Option String := none
  cta_url : Option String := none
  featured : Nat := 0
deriving DecidableEq, Repr

/-- `SELECT * FROM posts WHERE id = ?` with `query_one`. -/
def findById (db : List Post) (i : Nat) : Option Post :=
  db.find? (fun p => p.id == i)

/-- `SELECT * FROM posts WHERE slug = ?` with `query_one`. -/
def findBySlug (db : List Post) (s : String) : Option Post :=
  db.find? (fun p => p.slug == s)

/-- `WHERE published = 1`. -/
def publishedPosts (db : List Post) : List Post :=
  db.filter (fun p => p.published == 1)

/-- `COALESCE(publish_date, created_at)`. -/
def sortKey (p : Post) : String :=
  p.publish_date.getD p.created_at

/-- Lexicographic code-point comparison of two character lists.  SQLite's
default BINARY collation compares the UTF-8 bytes of TEXT values, and
UTF-8 byte order coincides with code-point order. -/
def chListLe : List Char → List Char → Bool
  | [], _ => true
  | _ :: _, [] => false
  | a :: as, b :: bs =>
    if a.toNat < b.toNat then true
    else if a.toNat = b.toNat then chListLe as bs
    else false

/-- BINARY-collation `<=` on TEXT values. -/
def strLeB (s t : String) : Bool := chListLe s.data t.data

/-- `ORDER BY COALESCE(publish_date, created_at) DESC`: `a` may come
before `b` when its key is not smaller. -/
def byDateDesc (a b : Post) : Prop :=
  strLeB (sortKey b) (sortKey a) = true

instance : DecidableRel byDateDesc := fun a b =>
  inferInstanceAs (Decidable (strLeB (sortKey b) (sortKey a) = true))

/-- The rows of `SELECT * FROM posts WHERE published = 1 ORDER BY
COALESCE(publish_date, created_at) DESC`. -/
def orderedPublished (db : List Post) : List Post :=
  List.insertionSort byDateDesc (publishedPosts db)

/-- A state-mutating request as the app processes it: `before_request`
runs `csrf_protect`; only if that passes does the route handler touch the
posts table. -/
def runMutatingRequest (m : Method) (sentToken : Option String) (sess : SessionState)
    (now : Int) (db : List Post)
    (handler : List Post → HttpResponse × List Post) : HttpResponse × List Post :=
  match csrf_protect m sentToken sess now with
  | some resp => (resp, db)
  | none => handler db

/-- Claim C2: for every state-mutating request (POST, PUT, DELETE), if the
submitted `csrf_token` form field is missing, differs from the session's
stored token, or the stored token was issued more than one hour (3600
seconds) ago, the request is rejected with a 400-class response and the
stored posts data is unchanged. -/
theorem claim_C2_csrf_rejects (m : Method) (sentToken : Option String)
    (sess : SessionState) (now : Int) (db : List Post)
    (handler : List Post → HttpResponse × List Post)
    (hm : isMutating m = true)
    (hbad : sentToken = none ∨ sentToken ≠ sess.csrfToken ∨
      now - sess.csrfTs.getD 0 > CSRF_TTL_SECONDS) :
    runMutatingRequest m sentToken sess now db handler = (.badRequest, db) := by
  have hval : validate_csrf_token sentToken sess now = false := by
    unfold validate_csrf_token
    split_ifs with h1 h2 h3
    · rfl
    · rfl
    · rfl
    · exfalso
      rcases hbad with h | h | h
      · exact h1 (by simp [h, strFalsy])
      · exact h (by push_neg at h2; exact h2)
      · exact h3 h
  unfold runMutatingRequest csrf_protect
  simp [hm, hval]

theorem claim_C2_csrf_rejects_witness :
    runMutatingRequest Method.POST none { csrfToken := some "tok", csrfTs := some 0 } 0 []
      (fun db => (HttpResponse.page "admin", db)) = (HttpResponse.badRequest, []) :=
  claim_C2_csrf_rejects _ _ _ _ _ _ rfl (Or.inl rfl)

/-- Claim C10: `generate_csrf_token` never replaces or re-timestamps an
existing (non-empty) session token, even one past its TTL; once the token
is older than the TTL every subsequent state-mutating request echoing the
token served by `generate_csrf_token` fails validation. -/
theorem claim_C10_token_never_rotated (sess : SessionState) (t fresh : String)
    (now now2 : Int) (ht : sess.csrfToken = some t) (hne : t ≠ "") :
    generate_csrf_token sess fresh now = (t, sess) ∧
    (now2 - sess.csrfTs.getD 0 > CSRF_TTL_SECONDS →
      validate_csrf_token (some t) sess now2 = false) := by
  have hfalsy : strFalsy sess.csrfToken = false := by
    rw [ht]; simpa [strFalsy] using hne
  constructor
  · unfold generate_csrf_token
    rw [hfalsy]
    simp [ht]
  · intro hexp
    unfold validate_csrf_token
    split_ifs with h1 h2
    · rfl
    · rfl
    · rfl

theorem claim_C10_token_never_rotated_witness :
    generate_csrf_token { csrfToken := some "tok", csrfTs := some 0 } "fresh2" 5
      = ("tok", { csrfToken := some "tok", csrfTs := some 0 }) ∧
    validate_csrf_token (some "tok") { csrfToken := some "tok", csrfTs := some 0 } 4000
      = false := by
  have h := claim_C10_token_never_rotated { csrfToken := some "tok", csrfTs := some 0 }
    "tok" "fresh2" 5 4000 rfl (by decide)
  exact ⟨h.1, h.2 (by decide)⟩

/-! ## Blog index (app.py `blog_index`, lines 223-273)

`page = max(1, int(request.args.get("page", 1)))`: the query parameter is
fed to Python `int`, which raises `ValueError` on a non-integer string,
turning the request into a 500-class failure.  `int` is modelled by
`pyInt` below (whitespace strip, optional sign, digits with single
underscores strictly between digits). -/

def isDigitChar (c : Char) : Bool :=
  decide ('0' ≤ c ∧ c ≤ '9')

/-- No two adjacent underscores. -/
def noAdjacentUnderscores : List Char → Bool
  | [] => true
  | [_] => true
  | a :: b :: rest => !(a == '_' && b == '_') && noAdjacentUnderscores (b :: rest)

/-- A valid digit group for Python `int`: nonempty, only digits and
underscores, first and last characters digits, no doubled underscore. -/
def pyDigitsOk (l : List Char) : Bool :=
  !l.isEmpty
    && l.all (fun c => isDigitChar c || c == '_')
    && (match l.head? with | some c => isDigitChar c | none => false)
    && (match l.getLast? with | some c => isDigitChar c | none => false)
    && noAdjacentUnderscores l

def digitsToNat (l : List Char) : Nat :=
  l.foldl (fun acc c => if c == '_' then acc else acc * 10 + (c.toNat - '0'.toNat)) 0

/-- Python `int(s)` for a string argument; `none` models `ValueError`. -/
def pyInt (s : String) : Option Int :=
  match pyStripChars s.data with
  | '+' :: rest => if pyDigitsOk rest then some (Int.ofNat (digitsToNat rest)) else none
  | '-' :: rest => if pyDigitsOk rest then some (-(Int.ofNat (digitsToNat rest))) else none
  | l => if pyDigitsOk l then some (Int.ofNat (digitsToNat l)) else none

inductive PyExc
  | valueError
deriving DecidableEq, Repr

/-- `math.ceil(a / b)` for natural `a` and positive `b`. -/
def pyCeilDiv (a b : Nat) : Nat := (a + b - 1) / b

/-- `max(1, math.ceil(total / per_page))` with `per_page = 10`. -/
def blogTotalPages (db : List Post) : Nat :=
  max 1 (pyCeilDiv (publishedPosts db).length 10)

/-- Core of `blog_index` once the page parameter is an integer: clamp to a
minimum of 1, then `LIMIT 10 OFFSET (page-1)*10` over the published posts
ordered by `COALESCE(publish_date, created_at) DESC`.  Returns the posts
of the page, the total page count and the clamped page. -/
def blogPage (db : List Post) (pageInt : Int) : List Post × Nat × Int :=
  let page : Int := max 1 pageInt
  let offset : Nat := ((page - 1) * 10).toNat
  (((orderedPublished db).drop offset).take 10,
    blogTotalPages db, page)

/-- `blog_index` (app.py lines 223-273): parse the `page` query value with
`int` (absent means the integer default 1), then serve the page. -/
def blog_index (db : List Post) (pageArg : Option String) :
    Except PyExc (List Post × Nat × Int) :=
  match pageArg with
  | none => .ok (blogPage db 1)
  | some s =>
    match pyInt s with
    | some i => .ok (blogPage db i)
    | none => .error .valueError

/-- A concrete database of 15 published posts with distinct slugs and
publish dates, for the pagination example. -/
def mkSample (i : Nat) : Post :=
  { id := i + 1
    title := "Sample"
    slug := "sample-" ++ toString i
    excerpt := "e"
    content := "c"
    published := 1
    created_at := "2024-01-01T00:00:00"
    updated_at := "2024-01-01T00:00:00"
    publish_date := some ("2024-02-" ++ toString (10 + i) ++ "T00:00:00") }

def db15 : List Post := (List.range 15).map mkSample

/-- Claim C5: for the blog index with page size 10, the computed total
page count equals `ceil(total_published / 10)` with a minimum of 1
(characterised here by its bounds), an integer page parameter below 1 is
clamped to 1, and every page number beyond the last page yields an empty
post list rather than an error. -/
theorem claim_C5_pagination (db : List Post) :
    ((publishedPosts db).length ≤ 10 * blogTotalPages db ∧
      (blogTotalPages db = 1 ∨
        10 * (blogTotalPages db - 1) < (publishedPosts db).length)) ∧
    (∀ i : Int, i < 1 → blogPage db i = blogPage db 1) ∧
    (∀ i : Int, (blogTotalPages db : Int) < i → (blogPage db i).1 = []) := by
  refine ⟨?_, ?_, ?_⟩
  · unfold blogTotalPages pyCeilDiv
    constructor
    · omega
    · omega
  · intro i hi
    unfold blogPage
    have h1 : max 1 i = (1 : Int) := by omega
    rw [h1]
    simp
  · intro i hi
    unfold blogPage
    have hlen : (orderedPublished db).length = (publishedPosts db).length :=
      (List.perm_insertionSort byDateDesc (publishedPosts db)).length_eq
    have htp : (publishedPosts db).length ≤ 10 * blogTotalPages db := by
      unfold blogTotalPages pyCeilDiv
      omega
    have hoff : (orderedPublished db).length ≤ ((max 1 i - 1) * 10).toNat := by
      rw [hlen]
      omega
    simp only [List.drop_eq_nil_of_le hoff, List.take_nil]

theorem claim_C5_pagination_witness :
    (blogPage db15 1).1.length = 10 ∧ (blogPage db15 2).1.length = 5 ∧
    (blogPage db15 3).1 = [] ∧ blogTotalPages db15 = 2 := by
  refine ⟨by decide, by decide, ?_, by decide⟩
  exact (claim_C5_pagination db15).2.2 3 (by decide)

/-- Claim C9 (implicit): the blog index's page-parameter handling is
defined only for query values parseable as an integer literal; a `page`
query value rejected by Python `int` makes the handler raise an unhandled
`ValueError` (a 500-class failure) instead of clamping the page to 1. -/
theorem claim_C9_nonint_page_raises (db : List Post) (s : String)
    (h : pyInt s = none) :
    blog_index db (some s) = .error .valueError := by
  simp only [blog_index, h]

theorem claim_C9_nonint_page_raises_witness :
    blog_index [] (some "abc") = .error .valueError :=
  claim_C9_nonint_page_raises [] "abc" rfl

/-! ## Post detail (app.py `post_detail`, lines 275-327)

```python
row = query_one("SELECT * FROM posts WHERE slug = ?", (slug,))
if not row:
    abort(404)
post = serialize_post(row)
if not post.get("published") and not session.get("admin_authenticated"):
    abort(404)
```
A falsy `published` column means the integer 0. -/

def post_detail (db : List Post) (slug : String) (adminAuthenticated : Bool) :
    HttpResponse :=
  match findBySlug db slug with
  | none => .notFound
  | some row =>
    if row.published == 0 && !adminAuthenticated then .notFound
    else .page "post"

/-- Claim C7: for every post with `published = 0`, `GET /post/<slug>`
returns 404 when the session is not authenticated and renders the post
(200) when it is; a slug matching no post yields 404 in all cases. -/
theorem claim_C7_draft_visibility (db : List Post) (slug : String) :
    (∀ p, findBySlug db slug = some p → p.published = 0 →
      post_detail db slug false = .notFound ∧
      post_detail db slug true = .page "post") ∧
    (findBySlug db slug = none →
      ∀ auth : Bool, post_detail db slug auth = .notFound) := by
  constructor
  · intro p hp hpub
    unfold post_detail
    rw [hp]
    simp [hpub]
  · intro hnone auth
    unfold post_detail
    rw [hnone]

/-- A concrete draft post for the claim C7 witness. -/
def draftSample : Post :=
  { id := 1
    title := "t"
    slug := "d"
    excerpt := "e"
    content := "c"
    published := 0
    created_at := "2024"
    updated_at := "2024" }

theorem claim_C7_draft_visibility_witness :
    (post_detail [draftSample] "d" false = .notFound) ∧
    (post_detail [draftSample] "d" true = .page "post") ∧
    (post_detail [] "missing" false = .notFound) := by
  have h := claim_C7_draft_visibility [draftSample] "d"
  have h2 := (claim_C7_draft_visibility [] "missing").2 rfl false
  have h3 := h.1 draftSample rfl rfl
  exact ⟨h3.1, h3.2, h2⟩

/-! ## Route table and the admin login gate (app.py `register_routes`,
utils/auth.py `login_required`)

Each registered route, its `@app.route` rule string, and what a GET-style
request from a session *without* the `admin_authenticated` flag produces
(for mutating routes this assumes the CSRF gate of claim C2 passed).
`login_required` returns the redirect without calling the wrapped view;
`admin_logout` is not wrapped: its body runs, pops the absent flag (a
no-op on such a session) and redirects to the login route;
`admin_unavailable` is an ordinary public page. -/

inductive Route
  | home | blogIndexRoute | postDetailRoute | team | contact | rssFeedRoute
  | sitemapRoute | robots | health | adminUnavailable
  | adminLogin | adminLogout | adminDashboard | adminNew | adminEdit
  | adminDelete | adminDuplicateRoute | adminPreview
deriving DecidableEq, Repr

/-- The `@app.route` rule string of each route. -/
def routePath : Route → String
  | .home => "/"
  | .blogIndexRoute => "/blog"
  | .postDetailRoute => "/post/<slug>"
  | .team => "/team"
  | .contact => "/contact"
  | .rssFeedRoute => "/rss.xml"
  | .sitemapRoute => "/sitemap.xml"
  | .robots => "/robots.txt"
  | .health => "/health"
  | .adminUnavailable => "/admin-unavailable/"
  | .adminLogin => "/admin/login"
  | .adminLogout => "/admin/logout"
  | .adminDashboard => "/admin"
  | .adminNew => "/admin/new"
  | .adminEdit => "/admin/edit/<int:post_id>"
  | .adminDelete => "/admin/delete/<int:post_id>"
  | .adminDuplicateRoute => "/admin/duplicate/<int:post_id>"
  | .adminPreview => "/admin/preview/<int:post_id>"

/-- Whether the view is wrapped in `@login_required`. -/
def requiresLogin : Route → Bool
  | .adminDashboard => true
  | .adminNew => true
  | .adminEdit => true
  | .adminDelete => true
  | .adminDuplicateRoute => true
  | .adminPreview => true
  | _ => false

/-- What a request observes: the response, whether the view body ran, and
whether the posts data or the session authentication state changed. -/
structure RequestOutcome where
  resp : HttpResponse
  bodyRan : Bool
  postsChanged : Bool
  authChanged : Bool
deriving DecidableEq, Repr

/-- A public page outcome: the view body runs and renders a template. -/
def publicPage (name : String) : RequestOutcome :=
  { resp := .page name
    bodyRan := true
    postsChanged := false
    authChanged := false }

/-- A redirect to the login route; `ran` records whether a view body ran
on the way (only `admin_logout` runs one, and on a session without the
flag its `session.pop` is a no-op). -/
def loginRedirect (ran : Bool) : RequestOutcome :=
  { resp := .redirectTo "/admin/login"
    bodyRan := ran
    postsChanged := false
    authChanged := false }

/-- Outcome of a request on a session without `admin_authenticated`.
`login_required` (utils/auth.py lines 64-72) redirects to the login route
without executing the view; the unwrapped views behave as in app.py. -/
def unauthRequest (r : Route) : RequestOutcome :=
  if requiresLogin r then loginRedirect false
  else
    match r with
    | .adminLogin => publicPage "admin_login"
    | .adminLogout => loginRedirect true
    | .adminUnavailable => publicPage "admin_unavailable"
    | .home => publicPage "home"
    | .blogIndexRoute => publicPage "blog_index"
    | .postDetailRoute => publicPage "post"
    | .team => publicPage "team"
    | .contact => publicPage "contact"
    | .rssFeedRoute => publicPage "rss"
    | .sitemapRoute => publicPage "sitemap"
    | .robots => publicPage "robots"
    | .health => publicPage "health"
    | _ => loginRedirect false

/-- `path.startswith("/admin")`, computed on the character lists
(`String.startsWith` itself is not kernel-reducible). -/
def pathStartsWithAdmin (r : Route) : Bool :=
  "/admin".data.isPrefixOf (routePath r).data

/-- Counterexample to claim C6 as stated: the public informational route
`/admin-unavailable/` has a path starting with `/admin`, is not
`/admin/login`, yet an unauthenticated request is answered with a
rendered page, not a redirect to the login route. -/
theorem claim_C6_counterexample :
    pathStartsWithAdmin .adminUnavailable = true ∧
    routePath .adminUnavailable ≠ "/admin/login" ∧
    (unauthRequest .adminUnavailable).resp ≠ .redirectTo "/admin/login" ∧
    (unauthRequest .adminUnavailable).resp = .page "admin_unavailable" := by
  refine ⟨by decide, by decide, by decide, by decide⟩

/-- Claim C6 (amended): for every registered route whose path starts with
`/admin` other than `/admin/login` and the public `/admin-unavailable/`
page, a request from a session without the authenticated flag is answered
with a redirect to the login route, and neither the posts data nor the
session authentication state changes (the `login_required` routes never
run their view body; `/admin/logout` runs its body but popping the absent
flag leaves the session unchanged). -/
theorem claim_C6_admin_redirect (r : Route)
    (hadm : pathStartsWithAdmin r = true)
    (hlogin : routePath r ≠ "/admin/login")
    (hunavail : r ≠ Route.adminUnavailable) :
    (unauthRequest r).resp = .redirectTo "/admin/login" ∧
    (unauthRequest r).postsChanged = false ∧
    (unauthRequest r).authChanged = false ∧
    (requiresLogin r = true → (unauthRequest r).bodyRan = false) := by
  cases r <;>
    first
      | exact absurd hadm (by decide)
      | exact absurd rfl hlogin
      | exact absurd rfl hunavail
      | decide

theorem claim_C6_admin_redirect_witness :
    pathStartsWithAdmin Route.adminDelete = true ∧
    (unauthRequest Route.adminDelete).resp = .redirectTo "/admin/login" ∧
    (unauthRequest Route.adminDelete).postsChanged = false := by
  have h := claim_C6_admin_redirect Route.adminDelete (by decide) (by decide) (by decide)
  exact ⟨by decide, h.1, h.2.1⟩

/-! ## RSS feed and sitemap (app.py `rss_feed` lines 424-457, `sitemap`
lines 459-483) -/

/-- Python `x or y` on a nullable string column (`None` and `""` fall
back to `y`). -/
def pyOrStr (o : Option String) (d : String) : String :=
  match o with
  | none => d
  | some s => if s = "" then d else s

/-- `f"{settings['base_url']}/post/{post['slug']}"`. -/
def postLoc (baseUrl slug : String) : String :=
  baseUrl ++ "/post/" ++ slug

structure RssItem where
  title : String
  link : String
  guid : String
  pubDate : String
  description : String
deriving DecidableEq, Repr

/-- One `<item>` of the RSS feed. -/
def rssItemOf (baseUrl : String) (p : Post) : RssItem :=
  { title := p.title
    link := postLoc baseUrl p.slug
    guid := postLoc baseUrl p.slug
    pubDate := pyOrStr p.publish_date p.created_at
    description := p.excerpt }

/-- `rss_feed`: the items of the feed, built from
`SELECT * FROM posts WHERE published = 1 ORDER BY COALESCE(publish_date,
created_at) DESC LIMIT 15`. -/
def rss_feed (baseUrl : String) (db : List Post) : List RssItem :=
  ((orderedPublished db).take 15).map (rssItemOf baseUrl)

structure SitemapUrl where
  loc : String
  lastmod : String
deriving DecidableEq, Repr

/-- The `<url>` entry generated for a published post:
`(post["updated_at"] or datetime.utcnow().isoformat())[:10]`. -/
def sitemapEntryOf (baseUrl nowIso : String) (p : Post) : SitemapUrl :=
  { loc := postLoc baseUrl p.slug
    lastmod := String.mk (((pyOrStr (some p.updated_at) nowIso).data).take 10) }

/-- `sitemap`: four static routes stamped with today's date, then every
published post. -/
def sitemap (baseUrl today nowIso : String) (db : List Post) : List SitemapUrl :=
  (["/", "/team", "/contact", "/blog"].map
    (fun path => { loc := baseUrl ++ path, lastmod := today })) ++
  (publishedPosts db).map (sitemapEntryOf baseUrl nowIso)

theorem string_data_inj {a b : String} (h : a.data = b.data) : a = b := by
  cases a
  cases b
  exact congrArg String.mk h

theorem string_append_left_cancel {a b c : String} (h : a ++ b = a ++ c) : b = c := by
  have hd := congrArg String.data h
  rw [String.data_append, String.data_append] at hd
  exact string_data_inj (List.append_cancel_left hd)

theorem postLoc_inj {base s t : String} (h : postLoc base s = postLoc base t) :
    s = t := by
  unfold postLoc at h
  rw [String.append_assoc, String.append_assoc] at h
  have h2 := string_append_left_cancel h
  have hd := congrArg String.data h2
  rw [String.data_append, String.data_append] at hd
  exact string_data_inj (List.append_cancel_left hd)

theorem static_loc_ne_postLoc {base s path : String}
    (hpath : path ∈ (["/", "/team", "/contact", "/blog"] : List String)) :
    base ++ path ≠ postLoc base s := by
  intro h
  unfold postLoc at h
  rw [String.append_assoc] at h
  have h2 := string_append_left_cancel h
  have hd := congrArg String.data h2
  rw [String.data_append] at hd
  rcases List.mem_cons.mp hpath with rfl | hpath
  · simp at hd
  rcases List.mem_cons.mp hpath with rfl | hpath
  · simp at hd
  rcases List.mem_cons.mp hpath with rfl | hpath
  · simp at hd
  rcases List.mem_cons.mp hpath with rfl | hpath
  · simp at hd
  simp at hpath

/-- 16 published posts: one more than the RSS feed's `LIMIT 15`. -/
def db16 : List Post := (List.range 16).map mkSample

/-- Counterexample to claim C8 as stated: with 16 published posts the RSS
feed (LIMIT 15) omits the oldest published post. -/
theorem claim_C8_counterexample :
    mkSample 0 ∈ db16 ∧ (mkSample 0).published = 1 ∧
    rssItemOf "https://example.com" (mkSample 0)
      ∉ rss_feed "https://example.com" db16 := by
  refine ⟨by decide, by decide, by decide⟩

/-- Claim C8 (amended): for every database state with unique slugs, the
sitemap contains an entry for every currently published post and no entry
whose location is a draft's post URL; every RSS item stems from a
published post, no RSS item links to a draft's post URL, and whenever at
most 15 posts are published the RSS feed contains an entry for every
published post (with more than 15, only the 15 most recent appear). -/
theorem claim_C8_feeds (baseUrl today nowIso : String) (db : List Post)
    (hnodup : (db.map Post.slug).Nodup) :
    (∀ p ∈ db, p.published = 1 →
      sitemapEntryOf baseUrl nowIso p ∈ sitemap baseUrl today nowIso db) ∧
    (∀ p ∈ db, p.published ≠ 1 →
      ∀ u ∈ sitemap baseUrl today nowIso db, u.loc ≠ postLoc baseUrl p.slug) ∧
    (∀ item ∈ rss_feed baseUrl db,
      ∃ q ∈ db, q.published = 1 ∧ item = rssItemOf baseUrl q) ∧
    (∀ p ∈ db, p.published ≠ 1 →
      ∀ item ∈ rss_feed baseUrl db, item.link ≠ postLoc baseUrl p.slug) ∧
    ((publishedPosts db).length ≤ 15 →
      ∀ p ∈ db, p.published = 1 → rssItemOf baseUrl p ∈ rss_feed baseUrl db) := by
  have hperm := List.perm_insertionSort byDateDesc (publishedPosts db)
  refine ⟨?_, ?_, ?_, ?_, ?_⟩
  · intro p hp hpub
    unfold sitemap
    apply List.mem_append_right
    exact List.mem_map_of_mem _ (List.mem_filter.mpr ⟨hp, by simp [hpub]⟩)
  · intro p hp hpub u hu heq
    unfold sitemap at hu
    rcases List.mem_append.mp hu with hstat | hpost
    · rcases List.mem_map.mp hstat with ⟨path, hpath, rfl⟩
      exact static_loc_ne_postLoc hpath heq
    · rcases List.mem_map.mp hpost with ⟨q, hq, rfl⟩
      have hqdb := (List.mem_filter.mp hq).1
      have hqpub : q.published = 1 := by
        have := (List.mem_filter.mp hq).2
        simpa using this
      have hslug : q.slug = p.slug := postLoc_inj heq
      have hqp : q = p := List.inj_on_of_nodup_map hnodup hqdb hp hslug
      rw [hqp] at hqpub
      exact hpub hqpub
  · intro item hitem
    rcases List.mem_map.mp hitem with ⟨q, hq, rfl⟩
    have hq2 : q ∈ orderedPublished db := List.mem_of_mem_take hq
    have hq3 : q ∈ publishedPosts db := by
      unfold orderedPublished at hq2
      exact hperm.mem_iff.mp hq2
    refine ⟨q, (List.mem_filter.mp hq3).1, ?_, rfl⟩
    have := (List.mem_filter.mp hq3).2
    simpa using this
  · intro p hp hpub item hitem heq
    rcases List.mem_map.mp hitem with ⟨q, hq, rfl⟩
    have hq2 : q ∈ orderedPublished db := List.mem_of_mem_take hq
    have hq3 : q ∈ publishedPosts db := by
      unfold orderedPublished at hq2
      exact hperm.mem_iff.mp hq2
    have hqdb := (List.mem_filter.mp hq3).1
    have hqpub : q.published = 1 := by
      have := (List.mem_filter.mp hq3).2
      simpa using this
    have hslug : q.slug = p.slug := postLoc_inj heq
    have hqp : q = p := List.inj_on_of_nodup_map hnodup hqdb hp hslug
    rw [hqp] at hqpub
    exact hpub hqpub
  · intro hlen p hp hpub
    have hlen2 : (orderedPublished db).length ≤ 15 := by
      unfold orderedPublished
      rw [hperm.length_eq]
      exact hlen
    unfold rss_feed
    rw [List.take_of_length_le hlen2]
    apply List.mem_map_of_mem
    unfold orderedPublished
    exact hperm.mem_iff.mpr (List.mem_filter.mpr ⟨hp, by simp [hpub]⟩)

theorem claim_C8_feeds_witness :
    sitemapEntryOf "https://example.com" "2024-03-01T00:00:00" (mkSample 0)
      ∈ sitemap "https://example.com" "2024-03-01" "2024-03-01T00:00:00" db15 ∧
    rssItemOf "https://example.com" (mkSample 0) ∈ rss_feed "https://example.com" db15 := by
  have h := claim_C8_feeds "https://example.com" "2024-03-01" "2024-03-01T00:00:00" db15
    (by decide)
  exact ⟨h.1 (mkSample 0) (by decide) (by decide),
    h.2.2.2.2 (by decide) (mkSample 0) (by decide) (by decide)⟩

/-! ## Shared save handler (app.py `handle_post_save`, lines 701-828) -/

/-- `normalize_hero_style` (app.py lines 161-166). -/
def normalize_hero_style (value : Option String) : String :=
  match value with
  | none => "light"
  | some v =>
    if v = "" then "light"
    else
      let normalized := pyLower (pyStrip v)
      if normalized = "light" ∨ normalized = "slate" ∨ normalized = "midnight" then
        normalized
      else "light"

/-- `x or None` on a stripped form field. -/
def emptyToNone (s : String) : Option String :=
  if s = "" then none else some s

/-- Python `s.split(",")`. -/
def splitCommas : List Char → List (List Char)
  | [] => [[]]
  | c :: rest =>
    match splitCommas rest with
    | [] => [[c]]
    | h :: t => if c = ',' then [] :: h :: t else (c :: h) :: t

/-- `", ".join([tag.strip() for tag in tags.split(",") if tag.strip()])`. -/
def joinTags (s : String) : String :=
  String.intercalate ", "
    ((((splitCommas s.data).map String.mk).map pyStrip).filter (fun t => t ≠ ""))

/-- The form fields read by `handle_post_save` via `request.form.get`
(string fields default to `""`; `action` defaults to `"draft"`;
`featured` is the checkbox's truthiness; `hero_style` may be absent). -/
structure SaveForm where
  title : String := ""
  slug : String := ""
  excerpt : String := ""
  content : String := ""
  cover_url : String := ""
  tags : String := ""
  publish_date : String := ""
  action : String := "draft"
  hero_kicker : String := ""
  hero_style : Option String := none
  highlight_quote : String := ""
  summary_points : String := ""
  cta_label : String := ""
  cta_url : String := ""
  meta_title : String := ""
  meta_description : String := ""
  featured : Bool := false
deriving Repr

/-- `slug = slugify(slug_input or title)` on the stripped inputs. -/
def resolvedSlug (form : SaveForm) : String :=
  slugify (if pyStrip form.slug ≠ "" then pyStrip form.slug else pyStrip form.title)

/-- `existing["id"] if existing else 0` in the collision query. -/
def currentId : Option Post → Nat
  | some e => e.id
  | none => 0

/-- Publish-date resolution: explicit input wins, else a truthy existing
value on edit, else the current time. -/
def resolvedPublishDate (form : SaveForm) (existing : Option Post) (now : String) :
    String :=
  if pyStrip form.publish_date ≠ "" then pyStrip form.publish_date
  else
    match existing with
    | some e =>
      match e.publish_date with
      | some d => if d = "" then now else d
      | none => now
    | none => now

/-- The row contents written by both the UPDATE and the INSERT. -/
def savedFields (form : SaveForm) (existing : Option Post) (now : String) (p : Post) :
    Post :=
  { p with
    title := pyStrip form.title
    slug := resolvedSlug form
    excerpt := pyStrip form.excerpt
    content := pyStrip form.content
    cover_url := emptyToNone (pyStrip form.cover_url)
    tags := emptyToNone (joinTags form.tags)
    published := if form.action == "publish" then 1 else 0
    updated_at := now
    publish_date := some (resolvedPublishDate form existing now)
    meta_title := emptyToNone (pyStrip form.meta_title)
    meta_description := emptyToNone (pyStrip form.meta_description)
    hero_kicker := emptyToNone (pyStrip form.hero_kicker)
    hero_style := emptyToNone (normalize_hero_style form.hero_style)
    highlight_quote := emptyToNone (pyStrip form.highlight_quote)
    summary_points := emptyToNone (pyStrip form.summary_points)
    cta_label := emptyToNone (pyStrip form.cta_label)
    cta_url := emptyToNone (pyStrip form.cta_url)
    featured := if form.featured then 1 else 0 }

/-- The result of the save handler: a flash-error redirect back to the
form, or a success redirect to preview/edit of the saved post id. -/
inductive SaveResult
  | rejected (msg : String)
  | saved (postId : Nat) (toPreview : Bool)
deriving DecidableEq, Repr

def isRejected : SaveResult → Bool
  | .rejected _ => true
  | .saved _ _ => false

/-- `handle_post_save` (app.py lines 701-828): trim inputs, required-field
check, slug resolution and collision check against a different post's id,
then UPDATE in place (edit) or INSERT with a fresh id (create). -/
def handle_post_save (form : SaveForm) (existing : Option Post) (db : List Post)
    (now : String) (newId : Nat) : SaveResult × List Post :=
  if pyStrip form.title = "" ∨ pyStrip form.excerpt = "" ∨ pyStrip form.content = "" then
    (.rejected "Title, excerpt, and content are required.", db)
  else if resolvedSlug form = "" then
    (.rejected "Unable to generate a slug. Please adjust the title.", db)
  else if (db.find? (fun p =>
      p.slug == resolvedSlug form && p.id != currentId existing)).isSome then
    (.rejected "Slug already in use.", db)
  else
    match existing with
    | some e =>
      (.saved e.id (form.action == "preview"),
        db.map (fun p => if p.id = e.id then savedFields form (some e) now e else p))
    | none =>
      (.saved newId (form.action == "preview"),
        db ++ [savedFields form none now
          { id := newId
            title := ""
            slug := ""
            excerpt := ""
            content := ""
            created_at := now
            updated_at := now }])

/-- Claim C1: for every save through the shared handler, a resolved slug
equal to the slug of a different existing post (any existing post on
create, since AUTOINCREMENT ids are at least 1) is rejected with an error
and the table is unchanged; editing a post while keeping its own existing
slug succeeds. -/
theorem claim_C1_slug_uniqueness :
    (∀ (form : SaveForm) (existing : Option Post) (db : List Post) (now : String)
        (newId : Nat),
      (∀ p ∈ db, 1 ≤ p.id) →
      (∃ p ∈ db, p.slug = resolvedSlug form ∧ ∀ e, existing = some e → p.id ≠ e.id) →
      isRejected (handle_post_save form existing db now newId).1 = true ∧
      (handle_post_save form existing db now newId).2 = db) ∧
    (∀ (form : SaveForm) (e : Post) (db : List Post) (now : String) (newId : Nat),
      e ∈ db →
      pyStrip form.title ≠ "" → pyStrip form.excerpt ≠ "" → pyStrip form.content ≠ "" →
      resolvedSlug form = e.slug → e.slug ≠ "" →
      (∀ p ∈ db, p.slug = e.slug → p.id = e.id) →
      (handle_post_save form (some e) db now newId).1
        = SaveResult.saved e.id (form.action == "preview")) := by
  constructor
  · intro form existing db now newId hid hcoll
    unfold handle_post_save
    split_ifs with h1 h2 h3
    · exact ⟨rfl, rfl⟩
    · exact ⟨rfl, rfl⟩
    · exact ⟨rfl, rfl⟩
    · exfalso
      apply h3
      rcases hcoll with ⟨p, hp, hps, hpid⟩
      refine List.find?_isSome.mpr ⟨p, hp, ?_⟩
      simp only [Bool.and_eq_true, beq_iff_eq, bne_iff_ne]
      refine ⟨hps, ?_⟩
      cases existing with
      | some e => simpa [currentId] using hpid e rfl
      | none =>
        have := hid p hp
        simp only [currentId]
        omega
  · intro form e db now newId he ht hx hc hslug hne huniq
    unfold handle_post_save
    have h1 : ¬(pyStrip form.title = "" ∨ pyStrip form.excerpt = ""
        ∨ pyStrip form.content = "") := by
      push_neg
      exact ⟨ht, hx, hc⟩
    have h2 : ¬(resolvedSlug form = "") := by
      rw [hslug]
      exact hne
    have h3 : (db.find? (fun p =>
        p.slug == resolvedSlug form && p.id != currentId (some e))) = none := by
      rw [List.find?_eq_none]
      intro p hp hpred
      simp only [Bool.and_eq_true, beq_iff_eq, bne_iff_ne, currentId] at hpred
      rw [hslug] at hpred
      exact hpred.2 (huniq p hp hpred.1)
    rw [if_neg h1, if_neg h2, if_neg (by rw [h3]; simp)]

/-- An existing published post for the claim C1 witness. -/
def postA : Post :=
  { id := 1
    title := "AAPL"
    slug := "aapl"
    excerpt := "e"
    content := "c"
    published := 1
    created_at := "2024-01-01T00:00:00"
    updated_at := "2024-01-01T00:00:00" }

/-- A create-form whose slug collides with `postA`. -/
def formCreate : SaveForm :=
  { title := "Another"
    slug := "aapl"
    excerpt := "x"
    content := "y" }

/-- An edit-form keeping `postA`'s own slug. -/
def formEdit : SaveForm :=
  { title := "AAPL"
    slug := "aapl"
    excerpt := "x"
    content := "y" }

theorem claim_C1_slug_uniqueness_witness :
    isRejected (handle_post_save formCreate none [postA] "t2" 2).1 = true ∧
    (handle_post_save formCreate none [postA] "t2" 2).2 = [postA] ∧
    (handle_post_save formEdit (some postA) [postA] "t2" 2).1
      = SaveResult.saved 1 false := by
  have hA := claim_C1_slug_uniqueness.1 formCreate none [postA] "t2" 2
    (by decide)
    ⟨postA, by simp, by rfl, by intro e h; cases h⟩
  have hB := claim_C1_slug_uniqueness.2 formEdit postA [postA] "t2" 2
    (by simp) (by decide) (by decide) (by decide) (by rfl) (by decide)
    (by intro p hp _; rw [List.mem_singleton.mp hp])
  exact ⟨hA.1, hA.2, hB⟩

/-! ## Duplicate (app.py `admin_duplicate`, lines 582-642)

```python
base_slug = f"{post['slug']}-copy"
candidate_slug = base_slug
suffix = 2
while query_one("SELECT id FROM posts WHERE slug = ?", (candidate_slug,)):
    candidate_slug = f"{base_slug}-{suffix}"
    suffix += 1
```
The unbounded `while` is embedded with explicit fuel; the slug check is
membership among the slugs stored in the table. -/

def copyLoop (used : List String) (base : String) : String → Nat → Nat → Option String
  | _, _, 0 => none
  | cand, suffix, fuel + 1 =>
    if cand ∈ used then copyLoop used base (base ++ "-" ++ toString suffix) (suffix + 1) fuel
    else some cand

inductive DupResult
  | dupNotFound
  | dupFuelOut
  | done (np : Post) (db' : List Post)
deriving DecidableEq, Repr

/-- `admin_duplicate` (app.py lines 582-642): look the source post up by
id, disambiguate the slug, then INSERT a draft copy with title suffixed
" (Copy)", `published = 0`, `featured = 0`, fresh timestamps and
`publish_date` defaulting to now. -/
def admin_duplicate (db : List Post) (postId : Nat) (now : String) (newId : Nat)
    (fuel : Nat) : DupResult :=
  match findById db postId with
  | none => .dupNotFound
  | some post =>
    match copyLoop (db.map Post.slug) (post.slug ++ "-copy") (post.slug ++ "-copy")
        2 fuel with
    | none => .dupFuelOut
    | some slug =>
      let np : Post :=
        { id := newId
          title := post.title ++ " (Copy)"
          slug := slug
          excerpt := post.excerpt
          content := post.content
          cover_url := post.cover_url
          tags := post.tags
          published := 0
          created_at := now
          updated_at := now
          publish_date := some (pyOrStr post.publish_date now)
          meta_title := post.meta_title
          meta_description := post.meta_description
          hero_kicker := post.hero_kicker
          hero_style := some (normalize_hero_style post.hero_style)
          highlight_quote := post.highlight_quote
          summary_points := post.summary_points
          cta_label := post.cta_label
          cta_url := post.cta_url
          featured := 0 }
      .done np (db ++ [np])

theorem copyLoop_zero (used : List String) (base cand : String) (suffix : Nat) :
    copyLoop used base cand suffix 0 = none := rfl

theorem copyLoop_succ (used : List String) (base cand : String) (suffix fuel : Nat) :
    copyLoop used base cand suffix (fuel + 1)
      = if cand ∈ used then
          copyLoop used base (base ++ "-" ++ toString suffix) (suffix + 1) fuel
        else some cand := rfl

/-- Soundness of the slug loop: a returned candidate is unused, and it is
either the starting candidate or `base-k` where every candidate tried
before it (the start and each `base-j` with a smaller suffix) was used. -/
theorem copyLoop_spec (used : List String) (base : String) :
    ∀ (fuel suffix : Nat) (cand s : String),
      copyLoop used base cand suffix fuel = some s →
      s ∉ used ∧
      (s = cand ∨
        (cand ∈ used ∧ ∃ k, suffix ≤ k ∧ s = base ++ "-" ++ toString k ∧
          ∀ j, suffix ≤ j → j < k → base ++ "-" ++ toString j ∈ used)) := by
  intro fuel
  induction fuel with
  | zero =>
    intro suffix cand s h
    rw [copyLoop_zero] at h
    cases h
  | succ n ih =>
    intro suffix cand s h
    rw [copyLoop_succ] at h
    by_cases hc : cand ∈ used
    · rw [if_pos hc] at h
      have hrec := ih (suffix + 1) (base ++ "-" ++ toString suffix) s h
      refine ⟨hrec.1, Or.inr ⟨hc, ?_⟩⟩
      rcases hrec.2 with hs | ⟨hcand2, k, hk, hs, hall⟩
      · exact ⟨suffix, le_refl _, hs, fun j hj1 hj2 => absurd hj2 (by omega)⟩
      · refine ⟨k, by omega, hs, fun j hj1 hj2 => ?_⟩
        by_cases hj : j = suffix
        · subst hj
          exact hcand2
        · exact hall j (by omega) hj2
    · rw [if_neg hc] at h
      have hs : cand = s := by
        cases h
        rfl
      subst hs
      exact ⟨hc, Or.inl rfl⟩

theorem copyCand_eq (a c : String) :
    a ++ "-copy" ++ "-" ++ c = a ++ "-copy-" ++ c := by
  have h1 : a ++ "-copy" ++ "-" = a ++ "-copy-" := by
    rw [String.append_assoc]
    rfl
  rw [h1]

/-- The draft copy produced by duplicating `postA` into an otherwise
empty table. -/
def dupA : Post :=
  { id := 2
    title := "AAPL (Copy)"
    slug := "aapl-copy"
    excerpt := "e"
    content := "c"
    published := 0
    created_at := "t2"
    updated_at := "t2"
    publish_date := some "t2"
    hero_style := some "light"
    featured := 0 }

/-- Counterexample to claim C3 as stated: duplicating does NOT clone the
title (one of the fields the claim says is cloned) — the copy's title
gains a " (Copy)" suffix; the timestamps are reset to now as well. -/
theorem claim_C3_counterexample :
    admin_duplicate [postA] 1 "t2" 2 2 = DupResult.done dupA ([postA] ++ [dupA]) ∧
    dupA.title = "AAPL (Copy)" ∧
    dupA.title ≠ postA.title := by
  refine ⟨by decide, by decide, by decide⟩

/-- Claim C3 (amended): duplicating an existing post appends a new draft
post that clones excerpt, content, cover URL, tags, SEO and hero fields
(hero style in normalized form) and the truthy publish date of the
source, while `id` is fresh, the title gains " (Copy)", `published` and
`featured` are reset to 0, both timestamps are set to now, and the slug
is the source slug with "-copy" appended, or "-copy-2", "-copy-3", ...,
taking the first suffix not already used by any post. -/
theorem claim_C3_duplicate (db : List Post) (postId : Nat) (now : String) (newId : Nat)
    (fuel : Nat) (post np : Post) (db2 : List Post)
    (hfind : findById db postId = some post)
    (hdone : admin_duplicate db postId now newId fuel = .done np db2) :
    db2 = db ++ [np] ∧
    np.slug ∉ db.map Post.slug ∧
    (np.slug = post.slug ++ "-copy" ∨
      (post.slug ++ "-copy" ∈ db.map Post.slug ∧
        ∃ k, 2 ≤ k ∧ np.slug = post.slug ++ "-copy-" ++ toString k ∧
          ∀ j, 2 ≤ j → j < k → post.slug ++ "-copy-" ++ toString j ∈ db.map Post.slug)) ∧
    np.id = newId ∧
    np.title = post.title ++ " (Copy)" ∧
    np.excerpt = post.excerpt ∧
    np.content = post.content ∧
    np.cover_url = post.cover_url ∧
    np.tags = post.tags ∧
    np.published = 0 ∧
    np.featured = 0 ∧
    np.created_at = now ∧
    np.updated_at = now ∧
    np.publish_date = some (pyOrStr post.publish_date now) ∧
    np.meta_title = post.meta_title ∧
    np.meta_description = post.meta_description ∧
    np.hero_kicker = post.hero_kicker ∧
    np.hero_style = some (normalize_hero_style post.hero_style) ∧
    np.highlight_quote = post.highlight_quote ∧
    np.summary_points = post.summary_points ∧
    np.cta_label = post.cta_label ∧
    np.cta_url = post.cta_url := by
  unfold admin_duplicate at hdone
  rw [hfind] at hdone
  dsimp only at hdone
  cases hcl : copyLoop (db.map Post.slug) (post.slug ++ "-copy") (post.slug ++ "-copy")
      2 fuel with
  | none =>
    rw [hcl] at hdone
    cases hdone
  | some s =>
    rw [hcl] at hdone
    have hspec := copyLoop_spec (db.map Post.slug) (post.slug ++ "-copy") fuel 2
      (post.slug ++ "-copy") s hcl
    injection hdone with hnp hdb2
    subst hnp
    subst hdb2
    have hslugform : s = post.slug ++ "-copy" ∨
        (post.slug ++ "-copy" ∈ db.map Post.slug ∧
          ∃ k, 2 ≤ k ∧ s = post.slug ++ "-copy-" ++ toString k ∧
            ∀ j, 2 ≤ j → j < k →
              post.slug ++ "-copy-" ++ toString j ∈ db.map Post.slug) := by
      rcases hspec.2 with hs | ⟨hbase, k, hk, hs, hall⟩
      · exact Or.inl hs
      · refine Or.inr ⟨hbase, k, hk, hs.trans (copyCand_eq _ _), ?_⟩
        intro j hj1 hj2
        have hmem := hall j hj1 hj2
        rwa [copyCand_eq] at hmem
    exact ⟨rfl, hspec.1, hslugform, rfl, rfl, rfl, rfl, rfl, rfl, rfl, rfl, rfl, rfl,
      rfl, rfl, rfl, rfl, rfl, rfl, rfl, rfl, rfl⟩

/-- The seed post with slug `aapl-services-momentum`. -/
def postAapl : Post :=
  { id := 1
    title := "AAPL: Services Momentum and Valuation Floors"
    slug := "aapl-services-momentum"
    excerpt := "exc"
    content := "con"
    published := 1
    created_at := "2024-01-01T00:00:00"
    updated_at := "2024-01-01T00:00:00"
    publish_date := some "2024-01-15T12:00:00Z" }

/-- An already-existing copy occupying `aapl-services-momentum-copy`. -/
def postAaplCopy : Post :=
  { id := 2
    title := "AAPL: Services Momentum and Valuation Floors (Copy)"
    slug := "aapl-services-momentum-copy"
    excerpt := "exc"
    content := "con"
    published := 0
    created_at := "2024-01-02T00:00:00"
    updated_at := "2024-01-02T00:00:00"
    publish_date := some "2024-01-15T12:00:00Z" }

def dbAapl : List Post := [postAapl, postAaplCopy]

/-- The draft copy the duplicate route produces in `dbAapl`. -/
def dupAapl : Post :=
  { id := 3
    title := "AAPL: Services Momentum and Valuation Floors (Copy)"
    slug := "aapl-services-momentum-copy-2"
    excerpt := "exc"
    content := "con"
    published := 0
    created_at := "t3"
    updated_at := "t3"
    publish_date := some "2024-01-15T12:00:00Z"
    hero_style := some "light"
    featured := 0 }

theorem claim_C3_duplicate_witness :
    admin_duplicate dbAapl 1 "t3" 3 5 = DupResult.done dupAapl (dbAapl ++ [dupAapl]) ∧
    dupAapl.slug = "aapl-services-momentum-copy-2" ∧
    dupAapl.slug ∉ dbAapl.map Post.slug := by
  have h0 : admin_duplicate dbAapl 1 "t3" 3 5
      = DupResult.done dupAapl (dbAapl ++ [dupAapl]) := by decide
  have h := claim_C3_duplicate dbAapl 1 "t3" 3 5 postAapl dupAapl (dbAapl ++ [dupAapl])
    (by decide) h0
  exact ⟨h0, by decide, h.2.1⟩

end GrandRiver
